import Mathlib

/-
Shallow embedding of the exa-mcp-server tool registry, dispatcher and
capability handlers, used to check the specification claims.

Sources embedded:
- src/index.ts: configSchema, availableTools, parsedEnabledTools,
  shouldRegisterTool, the tool-registration chain (registeredTools) and
  the tools_list resource.
- src/tools/exaCode.ts and src/tools/deepSearch.ts: the single-phase
  capability handlers (success, empty-result and failure paths).
- src/tools/deepResearchCheck.ts is imported by src/index.ts but its file
  is not under src/; the Poll handler is modelled from the spec where
  needed (see deepResearchCheckResult).

JavaScript semantics are made explicit: truthiness of the string/array
configuration union, the || fallback chains, and optional fields as
Option. Handlers are total Lean functions over an outcome type whose
failure constructors model the catch branches; totality of these
functions is the embedding of "no exception propagates past the handler
boundary".
-/

namespace ExaMcp

/-- Static metadata of one capability, an entry of the availableTools
registry of src/index.ts: display name, description and the
default-enabled flag. -/
structure ToolInfo where
  name : String
  description : String
  enabled : Bool
deriving DecidableEq

/-- The static tool registry availableTools of src/index.ts, in its
source order, with the literal default-enabled flags. -/
def availableTools : List (String × ToolInfo) :=
  [("web_search_exa",
    ⟨"Web Search (Exa)", "Real-time web search using Exa AI", true⟩),
   ("get_code_context_exa",
    ⟨"Code Context Search",
     "Search for code snippets, examples, and documentation from open source repositories",
     true⟩),
   ("crawling_exa",
    ⟨"Web Crawling", "Extract content from specific URLs", false⟩),
   ("deep_researcher_start",
    ⟨"Deep Researcher Start", "Start a comprehensive AI research task", false⟩),
   ("deep_researcher_check",
    ⟨"Deep Researcher Check",
     "Check status and retrieve results of research task", false⟩),
   ("linkedin_search_exa",
    ⟨"LinkedIn Search", "Search LinkedIn profiles and companies", false⟩),
   ("company_research_exa",
    ⟨"Company Research", "Research companies and organizations", false⟩)]

/-- A value of the zod union `z.array(z.string()) | z.string()` accepted
for both the tools and the enabledTools configuration field. -/
inductive ToolsValue where
  | str (s : String)
  | arr (l : List String)
deriving DecidableEq

/-- JavaScript truthiness of a ToolsValue: the empty string is falsy,
every other string and every array (including the empty array) is
truthy. -/
def ToolsValue.truthy : ToolsValue → Bool
  | ToolsValue.str s => s != ""
  | ToolsValue.arr _ => true

/-- The runtime configuration accepted by configSchema in src/index.ts:
optional exaApiKey, the optional enabledTools and tools fields (string or
array), and the debug flag. -/
structure Config where
  exaApiKey : Option String := none
  enabledTools : Option ToolsValue := none
  tools : Option ToolsValue := none
  debug : Bool := false

/-- JavaScript whitespace as removed by String.prototype.trim, restricted
to the ASCII whitespace characters (the exotic Unicode space classes of
the JS specification are elided; no configuration string in the claims
uses them). -/
def isJsSpace (c : Char) : Bool :=
  c = ' ' || c = '\t' || c = '\n' || c = '\r'

/-- JavaScript String.prototype.trim: strip leading and trailing
whitespace, written by explicit structural recursion on the character
list so that it evaluates in the kernel. -/
def jsTrim (s : String) : String :=
  String.mk (((s.data.dropWhile isJsSpace).reverse.dropWhile isJsSpace).reverse)

/-- Helper of jsSplitComma: accumulate the current field (in reverse)
while scanning the character list. -/
def jsSplitCommaAux : List Char → List Char → List String
  | [], acc => [String.mk acc.reverse]
  | c :: cs, acc =>
      if c = ',' then String.mk acc.reverse :: jsSplitCommaAux cs []
      else jsSplitCommaAux cs (c :: acc)

/-- JavaScript String.prototype.split(',') : the comma-separated fields,
with "".split(',') = [""] and a field for every separator. -/
def jsSplitComma (s : String) : List String :=
  jsSplitCommaAux s.data []

/-- The comma-split normalization applied to the string form in
src/index.ts: toolsParam.split(',').map(t => t.trim()).filter(t =>
t.length > 0). -/
def parseToolsString (s : String) : List String :=
  ((jsSplitComma s).map jsTrim).filter (fun t => 0 < t.length)

/-- The expression `config.tools || config.enabledTools` of src/index.ts:
tools is taken when present and truthy, otherwise enabledTools (whatever
its value, possibly undefined or falsy). -/
def toolsParam (c : Config) : Option ToolsValue :=
  match c.tools with
  | some v => if v.truthy then some v else c.enabledTools
  | none => c.enabledTools

/-- The parsedEnabledTools local of src/index.ts: undefined unless
toolsParam is truthy; a string is split on commas, trimmed and cleared of
empty entries, while an array is taken verbatim (no trimming or
filtering). -/
def parsedEnabledTools (c : Config) : Option (List String) :=
  match toolsParam c with
  | some v =>
      if v.truthy then
        match v with
        | ToolsValue.str s => some (parseToolsString s)
        | ToolsValue.arr l => some l
      else none
  | none => none

/-- Modelled from the spec's words, for stating claims C1 and C5 as
written: section 3 requires that "both forms must normalize to an
equivalent set of trimmed, non-empty identifiers", so this normalization
trims and drops empty entries in the array form as well. The code's own
normalization is parsedEnabledTools, which leaves arrays verbatim. -/
def specNormalize : ToolsValue → List String
  | ToolsValue.str s => parseToolsString s
  | ToolsValue.arr l => (l.map jsTrim).filter (fun t => 0 < t.length)

/-- The default-enabled lookup `availableTools[toolId]?.enabled ?? false`
of src/index.ts. -/
def defaultEnabled (toolId : String) : Bool :=
  match availableTools.find? (fun p => p.1 = toolId) with
  | some p => p.2.enabled
  | none => false

/-- The shouldRegisterTool helper of src/index.ts: when the parsed
enabledTools list exists and is non-empty, membership in that list;
otherwise the static default-enabled flag. An existing but empty parsed
list (length 0) falls back to the defaults. -/
def shouldRegisterTool (c : Config) (toolId : String) : Bool :=
  match parsedEnabledTools c with
  | some l => if 0 < l.length then l.contains toolId else defaultEnabled toolId
  | none => defaultEnabled toolId

/-- The order in which src/index.ts tests and registers tools: the fixed
chain of seven `if (shouldRegisterTool(id)) { register...; push(id) }`
blocks. -/
def registryOrder : List String :=
  ["web_search_exa", "company_research_exa", "crawling_exa",
   "linkedin_search_exa", "deep_researcher_start", "deep_researcher_check",
   "get_code_context_exa"]

/-- The registeredTools sequence built by the registration chain of
src/index.ts: each id of the chain, in chain order, that passes
shouldRegisterTool. -/
def registeredTools (c : Config) : List String :=
  registryOrder.filter (fun toolId => shouldRegisterTool c toolId)

/-- A JSON value, modelling the untyped payloads carried by the remote
endpoint responses (axios response.data and its fields). Numbers are
restricted to integers, which suffices for the fields the claims
touch. -/
inductive Json where
  | null
  | bool (b : Bool)
  | num (n : Int)
  | str (s : String)
  | arr (xs : List Json)
  | obj (kvs : List (String × Json))

mutual

/-- Serialization of a Json value, modelling JSON.stringify(value, null,
2) as used by the handlers, up to insignificant whitespace (the model is
compact; string escaping of quotes inside strings is elided, no claim
depends on it). -/
def serializeJson : Json → String
  | Json.null => "null"
  | Json.bool b => if b then "true" else "false"
  | Json.num n => toString n
  | Json.str s => "\"" ++ s ++ "\""
  | Json.arr xs => "[" ++ serializeJsonList xs ++ "]"
  | Json.obj kvs => "\x7b" ++ serializeJsonObj kvs ++ "\x7d"

/-- Comma-separated serialization of the elements of a JSON array. -/
def serializeJsonList : List Json → String
  | [] => ""
  | [j] => serializeJson j
  | j :: js => serializeJson j ++ "," ++ serializeJsonList js

/-- Comma-separated serialization of the key/value pairs of a JSON
object. -/
def serializeJsonObj : List (String × Json) → String
  | [] => ""
  | [(k, j)] => "\"" ++ k ++ "\":" ++ serializeJson j
  | (k, j) :: kvs =>
      "\"" ++ k ++ "\":" ++ serializeJson j ++ "," ++ serializeJsonObj kvs

end

/-- JavaScript truthiness of a JSON value: null, false, 0 and the empty
string are falsy; every array and object is truthy. -/
def jsTruthy : Json → Bool
  | Json.null => false
  | Json.bool b => b
  | Json.num n => n != 0
  | Json.str s => s != ""
  | Json.arr _ => true
  | Json.obj _ => true

/-- Property access d.results on a JSON value: the field of an object
when present, undefined (none) otherwise. -/
def resultsField : Json → Option Json
  | Json.obj kvs => (kvs.find? (fun p => p.1 = "results")).map (fun p => p.2)
  | _ => none

/-- Property access d.response on a JSON value: the field of an object
when present, undefined (none) otherwise. -/
def responseField : Json → Option Json
  | Json.obj kvs => (kvs.find? (fun p => p.1 = "response")).map (fun p => p.2)
  | _ => none

/-- The uniform output envelope of a capability handler. Every return
site of the embedded handlers carries exactly one textual content block,
so content is modelled by that block's text; a JavaScript result object
without an isError key is modelled by isError = false. -/
structure InvocationResult where
  text : String
  isError : Bool := false
deriving DecidableEq

/-- The data an axios error carries in the catch branches of the
handlers: error.response?.status (absent on transport-level failures such
as timeouts), error.response?.data?.message, and error.message. -/
structure AxiosFailure where
  status : Option Nat
  dataMessage : Option String
  message : String

/-- The expression `error.response?.status || 'unknown'` of the catch
branches: the decimal status code when present and truthy, the string
"unknown" otherwise. -/
def statusCodeText (status : Option Nat) : String :=
  match status with
  | some n => if 0 < n then toString n else "unknown"
  | none => "unknown"

/-- The expression `error.response?.data?.message || error.message` of
the catch branches, with JavaScript || falsiness of the empty string. -/
def axiosErrorMessage (e : AxiosFailure) : String :=
  match e.dataMessage with
  | some m => if m = "" then e.message else m
  | none => e.message

/-- The outcome of the single remote call a handler performs: a typed
response body (none models an undefined body), an axios error caught by
axios.isAxiosError, or any other thrown error carrying a message (the
`error instanceof Error ? error.message : String(error)` branch). -/
inductive RemoteOutcome where
  | success (data : Option Json)
  | axiosError (e : AxiosFailure)
  | genericError (message : String)

/-- The empty-result test of src/tools/deepSearch.ts:
`!response.data || !response.data.results || response.data.results.length === 0`.
A missing or falsy body, a missing or falsy results field, or an empty
results array is empty; a truthy non-array results field has undefined
.length and `undefined === 0` is false, so it is not empty. -/
def deepSearchEmpty : Option Json → Bool
  | none => true
  | some d =>
      if !(jsTruthy d) then true
      else
        match resultsField d with
        | none => true
        | some r =>
            if !(jsTruthy r) then true
            else
              match r with
              | Json.arr xs => xs.isEmpty
              | _ => false

/-- The empty-result test `!response.data` of src/tools/exaCode.ts: a
missing or falsy response body. -/
def exaCodeEmpty : Option Json → Bool
  | none => true
  | some d => !(jsTruthy d)

/-- The codeContent expression of src/tools/exaCode.ts: the response
field verbatim when it is a string, otherwise its JSON serialization (an
absent field is modelled as null). -/
def codeContent (d : Json) : String :=
  match responseField d with
  | some (Json.str s) => s
  | some j => serializeJson j
  | none => serializeJson Json.null

/-- The handler body of src/tools/deepSearch.ts, mapping the outcome of
its single remote call to the InvocationResult it returns. The function
is total: every failure is converted to a textual error result, none is
re-thrown. In the non-empty success branch the body is necessarily
present, so getD never takes its default. -/
def handleDeepSearch : RemoteOutcome → InvocationResult
  | RemoteOutcome.success data =>
      if deepSearchEmpty data then
        ⟨"No search results found. Please try a different query or adjust your search parameters.",
         false⟩
      else
        ⟨serializeJson (data.getD Json.null), false⟩
  | RemoteOutcome.axiosError e =>
      ⟨"Deep search error (" ++ statusCodeText e.status ++ "): " ++
         axiosErrorMessage e,
       true⟩
  | RemoteOutcome.genericError m =>
      ⟨"Deep search error: " ++ m, true⟩

/-- The handler body of src/tools/exaCode.ts, mapping the outcome of its
single remote call to the InvocationResult it returns. Total, like
handleDeepSearch. -/
def handleExaCode : RemoteOutcome → InvocationResult
  | RemoteOutcome.success none =>
      ⟨"No code snippets or documentation found. Please try a different query, be more specific about the library or programming concept, or check the spelling of framework names.",
       false⟩
  | RemoteOutcome.success (some d) =>
      if !(jsTruthy d) then
        ⟨"No code snippets or documentation found. Please try a different query, be more specific about the library or programming concept, or check the spelling of framework names.",
         false⟩
      else
        ⟨codeContent d, false⟩
  | RemoteOutcome.axiosError e =>
      ⟨"Code search error (" ++ statusCodeText e.status ++ "): " ++
         axiosErrorMessage e ++ ". Please check your query and try again.",
       true⟩
  | RemoteOutcome.genericError m =>
      ⟨"Code search error: " ++ m, true⟩

/-- JavaScript `a || b` on an optional string: the string when present
and non-empty, the fallback otherwise. -/
def jsOrString (a : Option String) (b : String) : String :=
  match a with
  | some s => if s = "" then b else s
  | none => b

/-- The x-api-key header expression of both handlers:
`config?.exaApiKey || process.env.EXA_API_KEY || ''`. The environment
variable is passed explicitly as envKey. Total for every combination of
absent or empty keys: an empty header never aborts the request
locally. -/
def requestApiKey (c : Config) (envKey : Option String) : String :=
  jsOrString c.exaApiKey (jsOrString envKey "")

/-- The literal header record both handlers pass to axios.create. -/
structure RequestHeaders where
  accept : String
  contentType : String
  xApiKey : String
deriving DecidableEq

/-- The headers of the axios instance created by
src/tools/exaCode.ts. -/
def exaCodeHeaders (c : Config) (envKey : Option String) : RequestHeaders :=
  ⟨"application/json", "application/json", requestApiKey c envKey⟩

/-- The headers of the axios instance created by
src/tools/deepSearch.ts. -/
def deepSearchHeaders (c : Config) (envKey : Option String) : RequestHeaders :=
  ⟨"application/json", "application/json", requestApiKey c envKey⟩

/-- The server-reported status of a research task (spec section 4.3). -/
inductive TaskStatus where
  | running
  | completed
  | failed
deriving DecidableEq

/-- A poll snapshot of a research task: its status, the optional
data.report field, the optional structured data payload, and the optional
failure diagnostic. -/
structure ResearchSnapshot where
  id : String
  status : TaskStatus
  report : Option String
  data : Option Json
  failureMessage : Option String

/-- Modelled from the spec: the Poll handler source
src/tools/deepResearchCheck.ts is imported by src/index.ts but absent
from src/. Spec section 4.3: a running snapshot yields a not-ready signal
distinct from failure; when status = completed, partialData.report (or,
if absent, the full structured payload) is surfaced as the canonical
result text (section 9: absent data is serialized as an empty object);
when status = failed, the failure is surfaced with the diagnostic the
snapshot carries, or as "failed, no further detail" without inventing a
reason. -/
def deepResearchCheckResult (s : ResearchSnapshot) : InvocationResult :=
  match s.status with
  | TaskStatus.running =>
      ⟨"Research task is still running. Please check again shortly.", false⟩
  | TaskStatus.completed =>
      match s.report with
      | some r => ⟨r, false⟩
      | none =>
          ⟨serializeJson (match s.data with
            | some d => d
            | none => Json.obj []), false⟩
  | TaskStatus.failed =>
      match s.failureMessage with
      | some m => ⟨"Research task failed: " ++ m, true⟩
      | none => ⟨"Research task failed, no further detail.", true⟩

/-- One entry of the tools_list resource of src/index.ts. -/
structure ToolsListEntry where
  id : String
  name : String
  description : String
  enabled : Bool
deriving DecidableEq

/-- The tools_list resource body of src/index.ts:
`Object.entries(availableTools).map(([id, tool]) => ({id, name, description, enabled: registeredTools.includes(id)}))`. -/
def toolsListResource (c : Config) : List ToolsListEntry :=
  availableTools.map
    (fun p => ⟨p.1, p.2.name, p.2.description, (registeredTools c).contains p.1⟩)

/-- When the parsed tools list is undefined, shouldRegisterTool falls
back to the static default-enabled flag. -/
theorem shouldRegisterTool_of_parsed_none (c : Config)
    (h : parsedEnabledTools c = none) (toolId : String) :
    shouldRegisterTool c toolId = defaultEnabled toolId := by
  simp [shouldRegisterTool, h]

/-- When the parsed tools list exists but is empty, shouldRegisterTool
falls back to the static default-enabled flag. -/
theorem shouldRegisterTool_of_parsed_nil (c : Config)
    (h : parsedEnabledTools c = some []) (toolId : String) :
    shouldRegisterTool c toolId = defaultEnabled toolId := by
  simp [shouldRegisterTool, h]

/-- When the parsed tools list is non-empty, shouldRegisterTool is
membership in that list. -/
theorem shouldRegisterTool_of_parsed_some (c : Config) (l : List String)
    (h : parsedEnabledTools c = some l) (hl : l ≠ []) (toolId : String) :
    shouldRegisterTool c toolId = l.contains toolId := by
  have hp : 0 < l.length := List.length_pos.mpr hl
  simp [shouldRegisterTool, h, hp]

/-- With an absent or empty parsed tools list, the registration chain
registers exactly the default-enabled tools, in chain order. -/
theorem registeredTools_default (c : Config)
    (h : parsedEnabledTools c = none ∨ parsedEnabledTools c = some []) :
    registeredTools c = registryOrder.filter defaultEnabled := by
  have hf : (fun toolId => shouldRegisterTool c toolId) = defaultEnabled := by
    funext toolId
    rcases h with h | h
    · exact shouldRegisterTool_of_parsed_none c h toolId
    · exact shouldRegisterTool_of_parsed_nil c h toolId
  show registryOrder.filter (fun toolId => shouldRegisterTool c toolId) =
    registryOrder.filter defaultEnabled
  rw [hf]

/-- With a non-empty parsed tools list, the registration chain registers
exactly the chain ids contained in that list, in chain order. -/
theorem registeredTools_selected (c : Config) (l : List String)
    (h : parsedEnabledTools c = some l) (hl : l ≠ []) :
    registeredTools c = registryOrder.filter (fun toolId => l.contains toolId) := by
  have hf : (fun toolId => shouldRegisterTool c toolId) =
      (fun toolId => l.contains toolId) := by
    funext toolId
    exact shouldRegisterTool_of_parsed_some c l h hl toolId
  show registryOrder.filter (fun toolId => shouldRegisterTool c toolId) =
    registryOrder.filter (fun toolId => l.contains toolId)
  rw [hf]

/-- Two configurations with the same parsed tools list register the same
tools. -/
theorem registeredTools_congr (c1 c2 : Config)
    (h : parsedEnabledTools c1 = parsedEnabledTools c2) :
    registeredTools c1 = registeredTools c2 := by
  have hf : (fun toolId => shouldRegisterTool c1 toolId) =
      (fun toolId => shouldRegisterTool c2 toolId) := by
    funext toolId
    unfold shouldRegisterTool
    rw [h]
  show registryOrder.filter (fun toolId => shouldRegisterTool c1 toolId) =
    registryOrder.filter (fun toolId => shouldRegisterTool c2 toolId)
  rw [hf]

/-- An error-flagged InvocationResult is never equal to a non-error
one. -/
theorem invocationResult_ne_of_isError (a b : InvocationResult)
    (ha : a.isError = true) (hb : b.isError = false) : a ≠ b := by
  intro hEq
  rw [hEq, hb] at ha
  exact Bool.false_ne_true ha

/-- A permutation of a list has the same contains function. -/
theorem contains_eq_of_perm (l l2 : List String) (h : l.Perm l2)
    (a : String) : l.contains a = l2.contains a := by
  rw [Bool.eq_iff_iff]
  simp [h.mem_iff]

/-- C1 counterexample: the claim as stated fails for the array form. The
configured value ["  "] normalizes, after trimming and dropping empty
entries, to the empty set, yet the code takes the array verbatim, sees a
non-empty list, and computes an empty active set instead of the
default-enabled set obtained when enabledCapabilities is absent. -/
theorem C1_counterexample :
    specNormalize (ToolsValue.arr ["  "]) = [] ∧
    registeredTools { tools := some (ToolsValue.arr ["  "]) } ≠
      registeredTools {} := by
  decide

/-- C1 (amended): for every RuntimeConfig whose enabledCapabilities value
parses, under the code's normalization (strings are split on commas,
trimmed and cleared of empty entries; arrays are taken verbatim), to an
absent or empty list — including a string of separators and whitespace
such as "  , ," and the empty array — the computed active set is exactly
the capability ids whose descriptor has defaultEnabled = true, the same
result as when enabledCapabilities is absent. -/
theorem C1_empty_parsed_falls_back_to_defaults (c : Config)
    (h : parsedEnabledTools c = none ∨ parsedEnabledTools c = some []) :
    registeredTools c = registryOrder.filter defaultEnabled ∧
    registeredTools c = registeredTools {} := by
  have h1 := registeredTools_default c h
  have h2 := registeredTools_default {} (Or.inl rfl)
  exact ⟨h1, h1.trans h2.symm⟩

/-- C1 witness: the separator-and-whitespace string "  , ," parses to the
empty list and yields the same active set as the empty configuration. -/
theorem C1_witness :
    registeredTools { tools := some (ToolsValue.str "  , ,") } =
      registryOrder.filter defaultEnabled ∧
    registeredTools { tools := some (ToolsValue.str "  , ,") } =
      registeredTools {} :=
  C1_empty_parsed_falls_back_to_defaults
    { tools := some (ToolsValue.str "  , ,") } (Or.inr (by decide))

/-- C2: the computed active set is always a subset of the known
capability descriptor ids, and when a non-empty list is configured the
result is exactly the known ids contained in it — unknown requested ids
are dropped without any error (the registration chain is total and
simply skips them). -/
theorem C2_active_subset_known (c : Config) :
    (∀ toolId ∈ registeredTools c,
      toolId ∈ availableTools.map (fun p => p.1)) ∧
    (∀ l, parsedEnabledTools c = some l → l ≠ [] →
      registeredTools c =
        registryOrder.filter (fun toolId => l.contains toolId)) := by
  constructor
  · intro toolId hmem
    have h1 : toolId ∈ registryOrder := by
      simp only [registeredTools] at hmem
      exact List.mem_of_mem_filter hmem
    have h2 : ∀ x ∈ registryOrder, x ∈ availableTools.map (fun p => p.1) := by
      decide
    exact h2 toolId h1
  · intro l hp hl
    exact registeredTools_selected c l hp hl

/-- C2 witness: the mixed request ["web_search_exa", "bogus_tool"]
registers exactly web_search_exa; the unknown id is silently dropped. -/
theorem C2_witness :
    registeredTools
        { enabledTools := some (ToolsValue.arr ["web_search_exa", "bogus_tool"]) } =
      registryOrder.filter
        (fun toolId =>
          (["web_search_exa", "bogus_tool"] : List String).contains toolId) ∧
    registryOrder.filter
        (fun toolId =>
          (["web_search_exa", "bogus_tool"] : List String).contains toolId) =
      ["web_search_exa"] :=
  ⟨(C2_active_subset_known
      { enabledTools := some (ToolsValue.arr ["web_search_exa", "bogus_tool"]) }).2
      ["web_search_exa", "bogus_tool"] rfl (by decide),
   by decide⟩

/-- C3: for every Poll snapshot with status = completed, a present
data.report field is surfaced verbatim as the result text, and an absent
report with a present structured data object yields the deterministic
serialization of that object (deepResearchCheckResult and serializeJson
are functions, so equal snapshots produce equal text). The handler is
modelled from the spec because src/tools/deepResearchCheck.ts is not
under src/. -/
theorem C3_completed_report_surfaced (s : ResearchSnapshot)
    (h : s.status = TaskStatus.completed) :
    (∀ r, s.report = some r →
      (deepResearchCheckResult s).text = r ∧
      (deepResearchCheckResult s).isError = false) ∧
    (s.report = none → ∀ d, s.data = some d →
      (deepResearchCheckResult s).text = serializeJson d ∧
      (deepResearchCheckResult s).isError = false) := by
  constructor
  · intro r hr
    simp [deepResearchCheckResult, h, hr]
  · intro hr d hd
    simp [deepResearchCheckResult, h, hr, hd]

/-- C3 witness: a completed snapshot with report "X" yields text "X"; a
completed snapshot without report but with data yields the serialization
of the data object. -/
theorem C3_witness :
    (deepResearchCheckResult
        ⟨"task-1", TaskStatus.completed, some "X", none, none⟩).text = "X" ∧
    (deepResearchCheckResult
        ⟨"task-2", TaskStatus.completed, none,
         some (Json.obj [("a", Json.num 1)]), none⟩).text =
      serializeJson (Json.obj [("a", Json.num 1)]) :=
  ⟨((C3_completed_report_surfaced _ rfl).1 "X" rfl).1,
   ((C3_completed_report_surfaced _ rfl).2 rfl _ rfl).1⟩

/-- C4: every failure outcome of the exaCode and deepSearch handlers —
a caught axios error (transport-level or remote non-success status) or
any other caught error — produces an InvocationResult with isError =
true, and when a remote status code is available its decimal form is
embedded in the error text. The handlers are total functions of the
outcome, which is the embedding of "no exception object propagates past
the handler boundary". -/
theorem C4_failures_are_textual_errors (e : AxiosFailure) (m : String) :
    (handleExaCode (RemoteOutcome.axiosError e)).isError = true ∧
    (handleDeepSearch (RemoteOutcome.axiosError e)).isError = true ∧
    (handleExaCode (RemoteOutcome.genericError m)).isError = true ∧
    (handleDeepSearch (RemoteOutcome.genericError m)).isError = true ∧
    (∀ n, e.status = some n → 0 < n →
      (∃ pre post,
        (handleExaCode (RemoteOutcome.axiosError e)).text =
          pre ++ toString n ++ post) ∧
      (∃ pre post,
        (handleDeepSearch (RemoteOutcome.axiosError e)).text =
          pre ++ toString n ++ post)) := by
  refine ⟨rfl, rfl, rfl, rfl, ?_⟩
  intro n hn hpos
  constructor
  · refine ⟨"Code search error (",
      "): " ++ axiosErrorMessage e ++ ". Please check your query and try again.", ?_⟩
    simp [handleExaCode, statusCodeText, hn, hpos, String.append_assoc]
  · refine ⟨"Deep search error (", "): " ++ axiosErrorMessage e, ?_⟩
    simp [handleDeepSearch, statusCodeText, hn, hpos, String.append_assoc]

/-- C4 witness: a remote rejection with status 404 yields an error result
embedding "404", and a generic failure yields an error result. -/
theorem C4_witness :
    (handleExaCode
        (RemoteOutcome.axiosError ⟨some 404, some "Not Found", "req failed"⟩)).isError =
      true ∧
    (handleDeepSearch (RemoteOutcome.genericError "boom")).isError = true ∧
    (∃ pre post,
      (handleExaCode
          (RemoteOutcome.axiosError ⟨some 404, some "Not Found", "req failed"⟩)).text =
        pre ++ toString 404 ++ post) :=
  ⟨(C4_failures_are_textual_errors ⟨some 404, some "Not Found", "req failed"⟩ "boom").1,
   (C4_failures_are_textual_errors ⟨some 404, some "Not Found", "req failed"⟩ "boom").2.2.2.1,
   ((C4_failures_are_textual_errors ⟨some 404, some "Not Found", "req failed"⟩ "boom").2.2.2.2
      404 rfl (by decide)).1⟩

/-- C5 counterexample: the claim as stated fails because the code never
trims the array form. The string "web_search_exa" and the array
["web_search_exa "] denote the same trimmed non-empty identifier, yet the
string form registers web_search_exa while the untrimmed array entry
matches nothing and the active set is empty. -/
theorem C5_counterexample :
    specNormalize (ToolsValue.arr ["web_search_exa "]) =
      specNormalize (ToolsValue.str "web_search_exa") ∧
    registeredTools { tools := some (ToolsValue.arr ["web_search_exa "]) } ≠
      registeredTools { tools := some (ToolsValue.str "web_search_exa") } := by
  decide

/-- C5 (amended): for every enabledCapabilities value v, the configs
with tools = v and enabledTools = v compute the same active capability
set; and a string form and an array form agree whenever the array is
exactly the string's normalized identifier list (the code takes arrays
verbatim, so array entries must already be trimmed and non-empty). -/
theorem C5_tools_alias_and_forms_agree :
    (∀ v, registeredTools { tools := some v } =
      registeredTools { enabledTools := some v }) ∧
    (∀ s l, parseToolsString s = l →
      registeredTools { tools := some (ToolsValue.str s) } =
        registeredTools { tools := some (ToolsValue.arr l) }) := by
  constructor
  · intro v
    apply registeredTools_congr
    cases v with
    | str s =>
        by_cases hs : s = ""
        · subst hs
          rfl
        · simp [parsedEnabledTools, toolsParam, ToolsValue.truthy, hs]
    | arr l => rfl
  · intro s l hl
    by_cases hs : s = ""
    · subst hs
      have hl0 : l = [] := hl.symm
      subst hl0
      have h1 := registeredTools_default
        { tools := some (ToolsValue.str "") } (Or.inl rfl)
      have h2 := registeredTools_default
        { tools := some (ToolsValue.arr []) } (Or.inr rfl)
      exact h1.trans h2.symm
    · apply registeredTools_congr
      have h1 : parsedEnabledTools { tools := some (ToolsValue.str s) } =
          some (parseToolsString s) := by
        simp [parsedEnabledTools, toolsParam, ToolsValue.truthy, hs]
      rw [h1, hl]
      rfl

/-- C5 witness: the comma-separated string and the corresponding array of
identifiers enable the same tools, and the tools alias matches
enabledTools on a concrete value. -/
theorem C5_witness :
    registeredTools
        { tools := some (ToolsValue.str "web_search_exa, crawling_exa") } =
      registeredTools
        { tools := some (ToolsValue.arr ["web_search_exa", "crawling_exa"]) } ∧
    registeredTools { tools := some (ToolsValue.str "crawling_exa") } =
      registeredTools { enabledTools := some (ToolsValue.str "crawling_exa") } :=
  ⟨C5_tools_alias_and_forms_agree.2 "web_search_exa, crawling_exa"
      ["web_search_exa", "crawling_exa"] (by decide),
   C5_tools_alias_and_forms_agree.1 (ToolsValue.str "crawling_exa")⟩

/-- C6 counterexample: the claim as stated fails. With the configured
list ["get_code_context_exa", "web_search_exa"], a registration sequence
preserving the input order would be that list, but the chain registers
["web_search_exa", "get_code_context_exa"] — the fixed registry order,
not the input order. -/
theorem C6_counterexample :
    registeredTools
        { enabledTools :=
            some (ToolsValue.arr ["get_code_context_exa", "web_search_exa"]) } ≠
      ["get_code_context_exa", "web_search_exa"] := by
  decide

/-- C6 (amended): with a non-empty configured list the computed active
set is order-independent — any permutation of the configured list yields
the same registration sequence — but that sequence follows the fixed
registry (if-chain) order of src/index.ts, not the input order of the
configured list. -/
theorem C6_registration_follows_registry_order (c : Config) (l : List String)
    (h : parsedEnabledTools c = some l) (hl : l ≠ []) :
    registeredTools c =
      registryOrder.filter (fun toolId => l.contains toolId) ∧
    (∀ c2 l2, parsedEnabledTools c2 = some l2 → l.Perm l2 →
      registeredTools c2 = registeredTools c) := by
  have h1 := registeredTools_selected c l h hl
  refine ⟨h1, ?_⟩
  intro c2 l2 hp2 hperm
  have hl2 : l2 ≠ [] := by
    intro hnil
    subst hnil
    exact hl hperm.eq_nil
  have h2 := registeredTools_selected c2 l2 hp2 hl2
  rw [h1, h2]
  have hf : (fun toolId => l2.contains toolId) =
      (fun toolId => l.contains toolId) := by
    funext toolId
    exact (contains_eq_of_perm l l2 hperm toolId).symm
  rw [hf]

/-- C6 witness: reversing the configured list leaves the registration
sequence unchanged, and that sequence is the registry-order filter. -/
theorem C6_witness :
    registeredTools
        { enabledTools :=
            some (ToolsValue.arr ["web_search_exa", "get_code_context_exa"]) } =
      registeredTools
        { enabledTools :=
            some (ToolsValue.arr ["get_code_context_exa", "web_search_exa"]) } :=
  (C6_registration_follows_registry_order
      { enabledTools :=
          some (ToolsValue.arr ["get_code_context_exa", "web_search_exa"]) }
      ["get_code_context_exa", "web_search_exa"] rfl (by decide)).2
    { enabledTools :=
        some (ToolsValue.arr ["web_search_exa", "get_code_context_exa"]) }
    ["web_search_exa", "get_code_context_exa"] rfl (by decide)

/-- C7: a successful remote response with a structurally empty result set
(no body, no results field, or zero results for deepSearch; no body for
exaCode) yields the benign "nothing found" text with isError = false, and
that result differs from the result of every failure outcome. -/
theorem C7_empty_result_benign (data : Option Json) :
    (deepSearchEmpty data = true →
      handleDeepSearch (RemoteOutcome.success data) =
        ⟨"No search results found. Please try a different query or adjust your search parameters.",
         false⟩ ∧
      (∀ e, handleDeepSearch (RemoteOutcome.axiosError e) ≠
        handleDeepSearch (RemoteOutcome.success data)) ∧
      (∀ m, handleDeepSearch (RemoteOutcome.genericError m) ≠
        handleDeepSearch (RemoteOutcome.success data))) ∧
    (exaCodeEmpty data = true →
      handleExaCode (RemoteOutcome.success data) =
        ⟨"No code snippets or documentation found. Please try a different query, be more specific about the library or programming concept, or check the spelling of framework names.",
         false⟩ ∧
      (∀ e, handleExaCode (RemoteOutcome.axiosError e) ≠
        handleExaCode (RemoteOutcome.success data)) ∧
      (∀ m, handleExaCode (RemoteOutcome.genericError m) ≠
        handleExaCode (RemoteOutcome.success data))) := by
  constructor
  · intro h
    have hmain : handleDeepSearch (RemoteOutcome.success data) =
        ⟨"No search results found. Please try a different query or adjust your search parameters.",
         false⟩ := by
      simp [handleDeepSearch, h]
    refine ⟨hmain, ?_, ?_⟩
    · intro e
      exact invocationResult_ne_of_isError _ _ rfl (by rw [hmain])
    · intro m
      exact invocationResult_ne_of_isError _ _ rfl (by rw [hmain])
  · intro h
    have hmain : handleExaCode (RemoteOutcome.success data) =
        ⟨"No code snippets or documentation found. Please try a different query, be more specific about the library or programming concept, or check the spelling of framework names.",
         false⟩ := by
      cases data with
      | none => rfl
      | some d =>
          simp only [exaCodeEmpty] at h
          simp [handleExaCode, h]
    refine ⟨hmain, ?_, ?_⟩
    · intro e
      exact invocationResult_ne_of_isError _ _ rfl (by rw [hmain])
    · intro m
      exact invocationResult_ne_of_isError _ _ rfl (by rw [hmain])

/-- C7 witness: a response whose results array is empty yields the benign
deepSearch message, and a missing body yields the benign exaCode
message, neither flagged as an error. -/
theorem C7_witness :
    handleDeepSearch
        (RemoteOutcome.success (some (Json.obj [("results", Json.arr [])]))) =
      ⟨"No search results found. Please try a different query or adjust your search parameters.",
       false⟩ ∧
    handleExaCode (RemoteOutcome.success none) =
      ⟨"No code snippets or documentation found. Please try a different query, be more specific about the library or programming concept, or check the spelling of framework names.",
       false⟩ :=
  ⟨((C7_empty_result_benign (some (Json.obj [("results", Json.arr [])]))).1
      (by decide)).1,
   ((C7_empty_result_benign none).2 rfl).1⟩

/-- C8: for every RuntimeConfig — including one whose configured list
contains duplicate ids — the registered-tools sequence contains no
duplicate ids, so each capability is bound to a handler at most once per
server instantiation (the chain of src/index.ts tests each id exactly
once). -/
theorem C8_no_duplicate_registration (c : Config) :
    (registeredTools c).Nodup ∧
    ∀ toolId, (registeredTools c).count toolId ≤ 1 := by
  have hreg : registryOrder.Nodup := by decide
  have h : (registeredTools c).Nodup := hreg.filter _
  exact ⟨h, fun toolId => List.nodup_iff_count_le_one.mp h toolId⟩

/-- C9: the x-api-key header of both handlers equals config.exaApiKey
when that is a non-empty string, otherwise the EXA_API_KEY environment
variable when non-empty, otherwise the empty string. The header
construction is total for every combination of absent or empty keys, so
a missing key never causes a local failure before the request is
issued. -/
theorem C9_api_key_resolution (c : Config) (envKey : Option String) :
    (∀ s, c.exaApiKey = some s → s ≠ "" →
      (exaCodeHeaders c envKey).xApiKey = s ∧
      (deepSearchHeaders c envKey).xApiKey = s) ∧
    ((c.exaApiKey = none ∨ c.exaApiKey = some "") →
      (∀ t, envKey = some t → t ≠ "" →
        (exaCodeHeaders c envKey).xApiKey = t ∧
        (deepSearchHeaders c envKey).xApiKey = t) ∧
      ((envKey = none ∨ envKey = some "") →
        (exaCodeHeaders c envKey).xApiKey = "" ∧
        (deepSearchHeaders c envKey).xApiKey = "")) := by
  constructor
  · intro s hs hne
    constructor
    · simp [exaCodeHeaders, requestApiKey, jsOrString, hs, hne]
    · simp [deepSearchHeaders, requestApiKey, jsOrString, hs, hne]
  · intro hc
    constructor
    · intro t ht htne
      rcases hc with hc | hc
      · constructor
        · simp [exaCodeHeaders, requestApiKey, jsOrString, hc, ht, htne]
        · simp [deepSearchHeaders, requestApiKey, jsOrString, hc, ht, htne]
      · constructor
        · simp [exaCodeHeaders, requestApiKey, jsOrString, hc, ht, htne]
        · simp [deepSearchHeaders, requestApiKey, jsOrString, hc, ht, htne]
    · intro he
      rcases hc with hc | hc <;> rcases he with he | he <;>
        simp [exaCodeHeaders, deepSearchHeaders, requestApiKey, jsOrString,
          hc, he]

/-- C9 witness: a non-empty configured key wins over the environment, an
absent configured key falls back to a non-empty environment key, and an
empty configured key with no environment key yields the empty header. -/
theorem C9_witness :
    (exaCodeHeaders { exaApiKey := some "cfg-key" } (some "env-key")).xApiKey =
      "cfg-key" ∧
    (exaCodeHeaders {} (some "env-key")).xApiKey = "env-key" ∧
    (deepSearchHeaders { exaApiKey := some "" } none).xApiKey = "" :=
  ⟨((C9_api_key_resolution { exaApiKey := some "cfg-key" } (some "env-key")).1
      "cfg-key" rfl (by decide)).1,
   (((C9_api_key_resolution {} (some "env-key")).2 (Or.inl rfl)).1
      "env-key" rfl (by decide)).1,
   (((C9_api_key_resolution { exaApiKey := some "" } none).2
      (Or.inr rfl)).2 (Or.inl rfl)).2⟩

/-- C10: the tools_list resource reports one entry per capability of the
static registry, in registry order, and each entry's enabled flag is true
exactly when that id is in the registered-tools sequence computed at
startup. -/
theorem C10_tools_list_flags_match_registration (c : Config) :
    ((toolsListResource c).map (fun e => e.id) =
      availableTools.map (fun p => p.1)) ∧
    (∀ e ∈ toolsListResource c,
      (e.enabled = true ↔ e.id ∈ registeredTools c)) := by
  constructor
  · simp [toolsListResource]
  · intro e he
    simp only [toolsListResource, List.mem_map] at he
    obtain ⟨p, hp, rfl⟩ := he
    simp

/-- C10 witness: in the default configuration the web_search_exa entry of
the tools_list resource carries enabled = true, matching its presence in
the registered tools. -/
theorem C10_witness :
    (ToolsListEntry.mk "web_search_exa" "Web Search (Exa)"
        "Real-time web search using Exa AI" true).enabled = true :=
  ((C10_tools_list_flags_match_registration {}).2
      (ToolsListEntry.mk "web_search_exa" "Web Search (Exa)"
        "Real-time web search using Exa AI" true)
      (by decide)).mpr (by decide)

end ExaMcp
